import Mathlib

/-!
Verification of `mmengine/evaluator/metric.py`: the `BaseMetric` abstract
base class, the `DumpResults` concrete metric, and the `_to_cpu` helper.

Python values that may appear in a metric's `results` accumulator, in the
collected results, or as metric values are embedded as the inductive type
`PyVal`.  Python dicts are embedded as association lists, which preserve
insertion order the way Python dicts do.
-/

/-- Embedding of the Python values handled by this file: tensors and
`BaseDataElement` instances carry the device they live on and an opaque
payload; lists, tuples and dicts are containers; every other object is
opaque.  This is the closed set of shapes `_to_cpu` dispatches on. -/
inductive PyVal : Type where
  | tensor (device : String) (payload : Nat)
  | dataElem (device : String) (payload : Nat)
  | list (xs : List PyVal)
  | tuple (xs : List PyVal)
  | dict (kvs : List (String × PyVal))
  | other (payload : Nat)

mutual
/-- Embeds the helper `_to_cpu` (lines 174-185): a `Tensor` or
`BaseDataElement` is moved to the cpu device (`data.to('cpu')`, payload
unchanged); a list, tuple or dict is rebuilt with the transform applied to
every element or value; anything else is returned unchanged. -/
def to_cpu : PyVal → PyVal
  | .tensor _ p => .tensor "cpu" p
  | .dataElem _ p => .dataElem "cpu" p
  | .list xs => .list (toCpuList xs)
  | .tuple xs => .tuple (toCpuList xs)
  | .dict kvs => .dict (toCpuDict kvs)
  | .other p => .other p

/-- Elementwise `_to_cpu` over a Python list (the comprehension on
line 179). -/
def toCpuList : List PyVal → List PyVal
  | [] => []
  | x :: xs => to_cpu x :: toCpuList xs

/-- Valuewise `_to_cpu` over a Python dict (the comprehension on line 183):
keys are kept, values are transformed. -/
def toCpuDict : List (String × PyVal) → List (String × PyVal)
  | [] => []
  | (k, v) :: kvs => (k, to_cpu v) :: toCpuDict kvs
end

/-- The container skeleton of a `PyVal`: every tensor, data element or
other leaf is erased to `leaf`, containers and dict keys are kept.  Used to
state that `_to_cpu` is structure preserving. -/
inductive Shape : Type where
  | leaf
  | list (xs : List Shape)
  | tuple (xs : List Shape)
  | dict (kvs : List (String × Shape))

mutual
/-- Computes the `Shape` skeleton of a `PyVal`. -/
def shape : PyVal → Shape
  | .tensor _ _ => .leaf
  | .dataElem _ _ => .leaf
  | .list xs => .list (shapeList xs)
  | .tuple xs => .tuple (shapeList xs)
  | .dict kvs => .dict (shapeDict kvs)
  | .other _ => .leaf

/-- Elementwise `shape` over a list. -/
def shapeList : List PyVal → List Shape
  | [] => []
  | x :: xs => shape x :: shapeList xs

/-- Valuewise `shape` over dict entries. -/
def shapeDict : List (String × PyVal) → List (String × Shape)
  | [] => []
  | (k, v) :: kvs => (k, shape v) :: shapeDict kvs
end

/-- A Python dict from metric-name strings to metric values, as returned by
`compute_metrics` and `evaluate` (an insertion-ordered association list). -/
abbrev MetricsDict := List (String × PyVal)

/-- The instance state a `BaseMetric` carries: `_dataset_meta`,
`collect_device`, the `results` accumulator, and the resolved name-prefix
attribute (the Python attribute `self.prefix`; `prefix` is not a usable
identifier in Lean, so the field is called `pfx`). -/
structure MetricState where
  dataset_meta : Option (List (String × PyVal))
  collect_device : String
  results : List PyVal
  pfx : Option String

/-- Embeds `BaseMetric.__init__` (lines 39-51).  `dflt` is the class
attribute `default_prefix` of the concrete variant and `arg` the constructor
argument `prefix`.  The resolution `self.prefix = prefix or
self.default_prefix` follows Python truthiness: `None` and the empty string
are falsy.  Returns the fresh state together with whether the
prefix-not-set warning was printed (`self.prefix is None`). -/
def BaseMetric.init (dflt : Option String) (collect_device : String)
    (arg : Option String) : MetricState × Bool :=
  let p : Option String :=
    match arg with
    | some s => if s = "" then dflt else some s
    | none => dflt
  (⟨none, collect_device, [], p⟩, p.isNone)

/-- Embeds the `dataset_meta` property setter (lines 58-61):
`self._dataset_meta = dataset_meta`, an unconditional assignment. -/
def MetricState.set_dataset_meta (st : MetricState)
    (dm : List (String × PyVal)) : MetricState :=
  { st with dataset_meta := some dm }

/-- Embeds the join on line 127, Python `'/'.join((self.prefix, k))`. -/
def joinSlash (a b : String) : String := a ++ "/" ++ b

/-- Embeds lines 125-129 of `evaluate`: `if self.prefix:` (Python
truthiness, so `None` and `''` take the else path) followed by the dict
comprehension that joins the prefix and each key with `'/'`. -/
def addKeyPre (pfx : Option String) (_metrics : MetricsDict) : MetricsDict :=
  match pfx with
  | some s =>
      if s != "" then _metrics.map (fun kv => (joinSlash s kv.1, kv.2))
      else _metrics
  | none => _metrics

/-- Embeds the designated-worker body of `evaluate` (lines 121-129, the
`if is_main_process():` branch): cast the collected results to cpu, run
`compute_metrics` on them, and add the name-prefix to the metric keys. -/
def mainBranch (cm : List PyVal → MetricsDict) (pfx : Option String)
    (results : List PyVal) : MetricsDict :=
  addKeyPre pfx (cm (toCpuList results))

/-- Modelled from the spec: the cross-process collection primitive
`collect_results` from `mmengine.dist` is not part of the sources; per the
spec it gathers every worker's accumulated results and truncates the
sequence to `size` to drop padding.  In a single-worker setup it therefore
returns this worker's results truncated to `size`; the device argument only
selects where collection happens and does not change the value. -/
def collect_results_single (results : List PyVal) (size : Nat)
    (_device : String) : List PyVal :=
  results.take size

/-- Embeds `BaseMetric.evaluate` (lines 95-138) specialized to a
single-worker setup, where `is_main_process()` is true (per the spec, the
single worker is the designated worker by definition) and the broadcast
over one worker leaves its argument unchanged.  Returns, in order: whether
the empty-accumulator warning was printed (`len(self.results) == 0`), the
returned value `metrics[0]`, and the state after `self.results.clear()`. -/
def evaluateSingle (cm : List PyVal → MetricsDict) (st : MetricState)
    (size : Nat) : Bool × MetricsDict × MetricState :=
  let warned := st.results.length == 0
  let collected := collect_results_single st.results size st.collect_device
  let metrics := [mainBranch cm st.pfx collected]
  (warned, metrics.headD [], { st with results := [] })

/-- Written from the spec's words for the (amended) single-worker claim:
`compute_metrics` applied to the device-relocated `R[:size]`, with every
key `k` replaced by `p ++ "/" ++ k` when the resolved name-prefix is a
nonempty string `p`, and with keys unchanged otherwise.  Deliberately
defined independently of `evaluateSingle` so the two can be compared. -/
def claimedSingleEval (cm : List PyVal → MetricsDict) (p : Option String)
    (R : List PyVal) (size : Nat) : MetricsDict :=
  let m := cm ((R.take size).map to_cpu)
  match p with
  | some s =>
      if s = "" then m
      else m.map (fun kv => (s ++ "/" ++ kv.1, kv.2))
  | none => m

/-- Modelled from the spec: in a multi-worker run, `collect_results`
gathers every worker's accumulated results into a single sequence in gather
order and truncates it to `size`; it is effectively invoked only on the
designated worker. -/
def collect_results_gather (allResults : List (List PyVal)) (size : Nat)
    (_device : String) : List PyVal :=
  allResults.flatten.take size

/-- One worker's `evaluate` body before the broadcast (lines 118-132): on
the designated worker the collected results are relocated, reduced by
`compute_metrics` and prefixed, giving `metrics = [_metrics]`; on every
other worker `metrics = [None]`.  The returned value is the single element
of `metrics`. -/
def workerLocal (cm : List PyVal → MetricsDict) (pfx : Option String)
    (device : String) (allResults : List (List PyVal)) (size : Nat)
    (isMain : Bool) : Option MetricsDict :=
  if isMain then
    some (mainBranch cm pfx (collect_results_gather allResults size device))
  else
    none

/-- Modelled from the spec: `broadcast_object_list` from `mmengine.dist` is
not part of the sources; per the spec it overwrites, on every worker, the
passed one-element list in place with the designated worker's list.
`mainVal` is the designated worker's element and `locs` lists the
per-worker elements before the broadcast. -/
def broadcast_object_list (mainVal : Option MetricsDict)
    (locs : List (Option MetricsDict)) : List (Option MetricsDict) :=
  locs.map (fun _ => mainVal)

/-- Modelled from the spec: one full multi-worker round of `evaluate`.
`allResults` lists each worker's accumulator contents; worker `0` is the
designated (main) worker, so `is_main_process()` is true exactly there.
Returns, for each worker, the value `metrics[0]` that its `evaluate` call
returns after the broadcast. -/
def worldEvaluate (cm : List PyVal → MetricsDict) (pfx : Option String)
    (device : String) (allResults : List (List PyVal)) (size : Nat) :
    List (Option MetricsDict) :=
  let locs := (List.range allResults.length).map
    (fun i => workerLocal cm pfx device allResults size (i == 0))
  broadcast_object_list (locs.headD none) locs

/-- Embeds `BaseMetric.evaluate` with each external step allowed to raise,
to capture exception propagation: `collect` embeds `collect_results`, `cm`
embeds the subclass's `compute_metrics`, `bcast` embeds
`broadcast_object_list`; a raised exception is an `Except.error`.  Returns,
in order: whether the empty-accumulator warning was printed, the outcome
(the returned `metrics[0]` or the propagated error), and the final state.
`self.results.clear()` is the last statement of the source, so the
accumulator is cleared only after every step has succeeded. -/
def evaluateE (collect : List PyVal → Nat → String → Except String (List PyVal))
    (cm : List PyVal → Except String MetricsDict)
    (bcast : List (Option MetricsDict) →
      Except String (List (Option MetricsDict)))
    (isMain : Bool) (st : MetricState) (size : Nat) :
    Bool × Except String (Option MetricsDict) × MetricState :=
  let warned := st.results.length == 0
  match collect st.results size st.collect_device with
  | .error e => (warned, .error e, st)
  | .ok results =>
    match (if isMain then
            (cm (toCpuList results)).map (fun m => [some (addKeyPre st.pfx m)])
          else .ok [none]) with
    | .error e => (warned, .error e, st)
    | .ok metrics =>
      match bcast metrics with
      | .error e => (warned, .error e, st)
      | .ok metrics2 =>
          (warned, .ok (metrics2.headD none), { st with results := [] })

/-- Embeds Python `s.endswith(suffix)` for one suffix: the suffix relation
on the character sequences. -/
def pyEndsWith (s suffix : String) : Bool :=
  suffix.data.isSuffixOf s.data

/-- The instance state of a `DumpResults` metric: the inherited
`BaseMetric` state plus `out_file_path`. -/
structure DumpResultsState where
  base : MetricState
  out_file_path : String

/-- Decides whether a construction attempt succeeded. -/
def exceptIsOk {ε α : Type} : Except ε α → Bool
  | .ok _ => true
  | .error _ => false

/-- Embeds `DumpResults.__init__` (lines 153-159): run
`BaseMetric.__init__` (the class attribute `default_prefix` is inherited as
`None` and no `prefix` argument is passed on), then raise `ValueError` when
`out_file_path` ends with neither `.pkl` nor `.pickle`
(`out_file_path.endswith(('.pkl', '.pickle'))`), else store the path. -/
def DumpResults.init (out_file_path : String) (collect_device : String) :
    Except String DumpResultsState :=
  let base := BaseMetric.init none collect_device none
  if !(pyEndsWith out_file_path ".pkl" || pyEndsWith out_file_path ".pickle")
  then .error "The output file must be a pkl file."
  else .ok ⟨base.1, out_file_path⟩

/-- The serialization side effect of the `dump` file primitive, which is
not part of the sources; modelled from the spec as a recorded
`serialize(value, path)` pair. -/
structure DumpEffect where
  path : String
  payload : List PyVal

/-- Embeds `DumpResults.compute_metrics` (lines 165-171): dump the full
collected result list to `self.out_file_path`, log the path, and return the
empty dict.  The `dump` call and the log line are returned as data (the
effect record and the message). -/
def DumpResults.compute_metrics (st : DumpResultsState)
    (results : List PyVal) : MetricsDict × DumpEffect × String :=
  (([] : MetricsDict),
   ⟨st.out_file_path, results⟩,
   "Results has been saved to " ++ st.out_file_path ++ ".")

/-- Embeds `DumpResults.process` (lines 161-163):
`self.results.extend(_to_cpu(predictions))` for a list of predictions. -/
def DumpResults.process (st : MetricState) (predictions : List PyVal) :
    MetricState :=
  { st with results := st.results ++ toCpuList predictions }

/-! ## Helper lemmas -/

/-- The elementwise transform over a Python list is `List.map to_cpu`. -/
theorem toCpuList_eq_map : ∀ xs : List PyVal, toCpuList xs = xs.map to_cpu
  | [] => rfl
  | x :: xs => by rw [toCpuList, toCpuList_eq_map xs, List.map]

/-- The valuewise transform over a Python dict maps over the entries while
keeping every key. -/
theorem toCpuDict_eq_map : ∀ kvs : List (String × PyVal),
    toCpuDict kvs = kvs.map (fun kv => (kv.1, to_cpu kv.2))
  | [] => rfl
  | (k, v) :: kvs => by rw [toCpuDict, toCpuDict_eq_map kvs, List.map]

mutual
/-- Relocation does not change the container skeleton of a value. -/
theorem shape_to_cpu : ∀ v : PyVal, shape (to_cpu v) = shape v
  | .tensor _ _ => rfl
  | .dataElem _ _ => rfl
  | .list xs => by rw [to_cpu, shape, shapeList_toCpuList, shape]
  | .tuple xs => by rw [to_cpu, shape, shapeList_toCpuList, shape]
  | .dict kvs => by rw [to_cpu, shape, shapeDict_toCpuDict, shape]
  | .other _ => rfl

/-- Elementwise version of `shape_to_cpu` for lists. -/
theorem shapeList_toCpuList : ∀ xs : List PyVal,
    shapeList (toCpuList xs) = shapeList xs
  | [] => rfl
  | x :: xs => by
      rw [toCpuList, shapeList, shape_to_cpu x, shapeList_toCpuList xs,
        shapeList]

/-- Valuewise version of `shape_to_cpu` for dict entries. -/
theorem shapeDict_toCpuDict : ∀ kvs : List (String × PyVal),
    shapeDict (toCpuDict kvs) = shapeDict kvs
  | [] => rfl
  | (k, v) :: kvs => by
      rw [toCpuDict, shapeDict, shape_to_cpu v, shapeDict_toCpuDict kvs,
        shapeDict]
end

/-! ## Claim theorems -/

/-- Claim C4: `_to_cpu` is a structure-preserving transform: it preserves
the container skeleton of every finite value; a tensor-like or
structured-prediction value becomes a host-memory (cpu) copy with its
payload unchanged; a list, tuple or dict is rebuilt as the same container
kind with the transform applied to every element or value, preserving
element order and keys; every other value is returned unchanged. -/
theorem to_cpu_structure_preserving :
    (∀ v, shape (to_cpu v) = shape v) ∧
    (∀ d p, to_cpu (PyVal.tensor d p) = PyVal.tensor "cpu" p) ∧
    (∀ d p, to_cpu (PyVal.dataElem d p) = PyVal.dataElem "cpu" p) ∧
    (∀ xs, to_cpu (PyVal.list xs) = PyVal.list (xs.map to_cpu)) ∧
    (∀ xs, to_cpu (PyVal.tuple xs) = PyVal.tuple (xs.map to_cpu)) ∧
    (∀ kvs, to_cpu (PyVal.dict kvs) =
      PyVal.dict (kvs.map (fun kv => (kv.1, to_cpu kv.2)))) ∧
    (∀ kvs, (toCpuDict kvs).map Prod.fst = kvs.map Prod.fst) ∧
    (∀ p, to_cpu (PyVal.other p) = PyVal.other p) := by
  refine ⟨shape_to_cpu, fun d p => rfl, fun d p => rfl, ?_, ?_, ?_, ?_,
    fun p => rfl⟩
  · intro xs; rw [to_cpu, toCpuList_eq_map]
  · intro xs; rw [to_cpu, toCpuList_eq_map]
  · intro kvs; rw [to_cpu, toCpuDict_eq_map]
  · intro kvs; rw [toCpuDict_eq_map, List.map_map]; rfl

/-- Claim C1, amended: for a single worker, `evaluate(size)` with
accumulator contents `R` returns `compute_metrics` applied to the
device-relocated copy `_to_cpu(R[:size])`, with every key `k` replaced by
`prefix + "/" + k` when the instance's resolved name-prefix is set to a
nonempty string, and with keys unchanged otherwise. -/
theorem evaluateSingle_eq_claimedSingleEval :
    ∀ (cm : List PyVal → MetricsDict) (st : MetricState) (size : Nat),
      (evaluateSingle cm st size).2.1 =
        claimedSingleEval cm st.pfx st.results size := by
  intro cm st size
  simp only [evaluateSingle, claimedSingleEval, mainBranch, addKeyPre,
    collect_results_single, toCpuList_eq_map, joinSlash, List.headD_cons]
  cases st.pfx with
  | none => rfl
  | some s =>
    by_cases hs : s = ""
    · simp [hs]
    · simp [hs]

/-- Claim C1 as stated is false: with the accumulator holding one tensor on
device "cuda" and a `compute_metrics` that embeds its input into the
result, `evaluate(1)` does not return `compute_metrics(R[:1])`, because the
source relocates the collected results to cpu before `compute_metrics`. -/
theorem evaluateSingle_claim_cex :
    (evaluateSingle (fun rs => [("d", PyVal.list rs)])
        ⟨none, "cpu", [PyVal.tensor "cuda" 0], none⟩ 1).2.1 ≠
      (fun rs => [("d", PyVal.list rs)])
        (([PyVal.tensor "cuda" 0] : List PyVal).take 1) := by
  simp [evaluateSingle, mainBranch, addKeyPre, collect_results_single,
    toCpuList, to_cpu]

/-- Claim C2: after `evaluate(size)` completes normally, the results
accumulator is empty, for every prior accumulator contents and whether or
not the empty-accumulator warning fired; stated both for the single-worker
evaluation and for the evaluation with fallible external steps. -/
theorem results_cleared_after_evaluate :
    (∀ (cm : List PyVal → MetricsDict) (st : MetricState) (size : Nat),
        ((evaluateSingle cm st size).2.2).results = []) ∧
    (∀ collect cm bcast (isMain : Bool) (st : MetricState) (size : Nat)
        (w : Bool) (m : Option MetricsDict) (st2 : MetricState),
        evaluateE collect cm bcast isMain st size = (w, .ok m, st2) →
        st2.results = []) := by
  constructor
  · intro cm st size; rfl
  · intro collect cm bcast isMain st size w m st2 h
    unfold evaluateE at h
    split at h
    · simp only [Prod.mk.injEq] at h
      exact absurd h.2.1 (by simp)
    · split at h
      · simp only [Prod.mk.injEq] at h
        exact absurd h.2.1 (by simp)
      · split at h
        · simp only [Prod.mk.injEq] at h
          exact absurd h.2.1 (by simp)
        · simp only [Prod.mk.injEq] at h
          rw [← h.2.2]

/-- Concrete instance of claim C2 with a nonempty accumulator and
successful external steps. -/
theorem results_cleared_after_evaluate_witness :
    ((⟨none, "cpu", [], none⟩ : MetricState)).results = [] :=
  results_cleared_after_evaluate.2 (fun rs sz _ => .ok (rs.take sz))
    (fun rs => .ok [("n", PyVal.list rs)]) (fun l => .ok l) true
    ⟨none, "cpu", [PyVal.other 1], none⟩ 1 false
    (some [("n", PyVal.list [PyVal.other 1])]) ⟨none, "cpu", [], none⟩ rfl

/-- Claim C3: in a multi-worker run, every worker's `evaluate(size)` call
returns the identical metrics mapping, equal to the one computed on the
designated worker (worker 0), even though `compute_metrics` runs only
there: the pre-broadcast value of every non-designated worker is `None`. -/
theorem all_workers_return_main_metrics :
    ∀ (cm : List PyVal → MetricsDict) (pfx : Option String) (device : String)
      (allResults : List (List PyVal)) (size : Nat),
      0 < allResults.length →
      worldEvaluate cm pfx device allResults size =
        List.replicate allResults.length
          (some (mainBranch cm pfx (allResults.flatten.take size))) ∧
      workerLocal cm pfx device allResults size false = none := by
  intro cm pfx device rs size h
  refine ⟨?_, rfl⟩
  obtain ⟨n, hn⟩ : ∃ n, rs.length = n + 1 := ⟨rs.length - 1, by omega⟩
  simp only [worldEvaluate, broadcast_object_list, hn,
    List.range_succ_eq_map, List.map_cons, List.headD_cons]
  rw [List.map_const']
  simp [workerLocal, collect_results_gather, List.replicate_succ]

/-- Concrete two-worker instance of claim C3. -/
theorem all_workers_return_main_metrics_witness :
    worldEvaluate (fun l => [("n", PyVal.list l)]) (some "p") "cpu"
        [[PyVal.other 1], [PyVal.other 2]] 2 =
      List.replicate
        ([[PyVal.other 1], [PyVal.other 2]] : List (List PyVal)).length
        (some (mainBranch (fun l => [("n", PyVal.list l)]) (some "p")
          (([[PyVal.other 1], [PyVal.other 2]] :
            List (List PyVal)).flatten.take 2))) :=
  (all_workers_return_main_metrics _ _ _ _ _ (by simp)).1

/-- Claim C5: constructing `DumpResults` fails with a `ValueError` exactly
when the output path ends in neither `.pkl` nor `.pickle`; in particular
`"out.json"` is rejected while `"out.pkl"` and `"out.pickle"` are accepted,
and the error is raised by the constructor itself. -/
theorem dump_init_validation :
    (∀ (path device : String),
        exceptIsOk (DumpResults.init path device) =
          (pyEndsWith path ".pkl" || pyEndsWith path ".pickle")) ∧
    DumpResults.init "out.json" "cpu" =
      .error "The output file must be a pkl file." ∧
    exceptIsOk (DumpResults.init "out.pkl" "cpu") = true ∧
    exceptIsOk (DumpResults.init "out.pickle" "cpu") = true := by
  refine ⟨?_, rfl, rfl, rfl⟩
  intro path device
  unfold DumpResults.init
  cases h : (pyEndsWith path ".pkl" || pyEndsWith path ".pickle") <;>
    simp [h, exceptIsOk]

/-- Claim C6: for every collected result list, `DumpResults.compute_metrics`
serializes the entire list to the configured output path and returns the
empty mapping. -/
theorem dump_compute_metrics_spec :
    ∀ (st : DumpResultsState) (results : List PyVal),
      (DumpResults.compute_metrics st results).1 = [] ∧
      (DumpResults.compute_metrics st results).2.1.path = st.out_file_path ∧
      (DumpResults.compute_metrics st results).2.1.payload = results :=
  fun _ _ => ⟨rfl, rfl, rfl⟩

/-- Claim C7: the name-prefix is resolved once at construction: it equals
the constructor argument when a (nonempty, per Python truthiness) one is
given, otherwise the variant's static default; the warning fires exactly
when the resolved value is `None`; and with an unresolved prefix,
`evaluate` reports the metric keys without any namespacing. -/
theorem metric_name_resolution :
    (∀ (dflt : Option String) (device s : String), s ≠ "" →
        (BaseMetric.init dflt device (some s)).1.pfx = some s) ∧
    (∀ (dflt : Option String) (device : String),
        (BaseMetric.init dflt device none).1.pfx = dflt) ∧
    (∀ (dflt : Option String) (device : String) (arg : Option String),
        (BaseMetric.init dflt device arg).2 = true ↔
          (BaseMetric.init dflt device arg).1.pfx = none) ∧
    (∀ (cm : List PyVal → MetricsDict) (st : MetricState) (size : Nat),
        st.pfx = none →
        (evaluateSingle cm st size).2.1 =
          cm (toCpuList (st.results.take size))) := by
  refine ⟨?_, fun dflt device => rfl, ?_, ?_⟩
  · intro dflt device s hs
    simp [BaseMetric.init, hs]
  · intro dflt device arg
    simp [BaseMetric.init, Option.isNone_iff_eq_none]
  · intro cm st size h
    simp [evaluateSingle, mainBranch, addKeyPre, collect_results_single, h]

/-- Concrete instances of claim C7: an explicit argument wins, the default
is used when no argument is given, the warning fires when both are `None`,
and an unresolved prefix leaves keys unchanged. -/
theorem metric_name_resolution_witness :
    (BaseMetric.init (some "d") "cpu" (some "p")).1.pfx = some "p" ∧
    (BaseMetric.init (some "d") "cpu" none).1.pfx = some "d" ∧
    (BaseMetric.init none "cpu" none).2 = true ∧
    (evaluateSingle (fun rs => [("k", PyVal.list rs)])
        ⟨none, "cpu", [PyVal.other 2], none⟩ 1).2.1 =
      (fun rs => [("k", PyVal.list rs)])
        (toCpuList (([PyVal.other 2] : List PyVal).take 1)) :=
  ⟨metric_name_resolution.1 (some "d") "cpu" "p" (by simp),
   metric_name_resolution.2.1 (some "d") "cpu",
   (metric_name_resolution.2.2.1 none "cpu" none).mpr rfl,
   metric_name_resolution.2.2.2 _ _ _ rfl⟩

/-- Claim C8: calling `evaluate` with an empty accumulator is non-fatal:
the warning fires and evaluation proceeds through collection, reduction,
prefixing and the broadcast, returning the computed mapping; in the
fallible embedding, emptiness on its own introduces no error. -/
theorem empty_results_nonfatal :
    (∀ (cm : List PyVal → MetricsDict) (st : MetricState) (size : Nat),
        st.results = [] →
        evaluateSingle cm st size =
          (true, addKeyPre st.pfx (cm []), { st with results := [] })) ∧
    (∀ collect cm bcast (isMain : Bool) (st : MetricState) (size : Nat),
        st.results = [] →
        (evaluateE collect cm bcast isMain st size).1 = true) := by
  constructor
  · intro cm st size h
    simp [evaluateSingle, mainBranch, collect_results_single, h, toCpuList]
  · intro collect cm bcast isMain st size h
    simp only [evaluateE, h, List.length_nil]
    split
    · rfl
    · split
      · rfl
      · split <;> rfl

/-- Concrete instance of claim C8: empty accumulator, prefix set. -/
theorem empty_results_nonfatal_witness :
    evaluateSingle (fun rs => [("m", PyVal.list rs)])
        ⟨none, "cpu", [], some "val"⟩ 5 =
      (true, addKeyPre (some "val") ((fun rs => [("m", PyVal.list rs)]) []),
        { (⟨none, "cpu", [], some "val"⟩ : MetricState) with results := [] }) :=
  empty_results_nonfatal.1 (fun rs => [("m", PyVal.list rs)])
    ⟨none, "cpu", [], some "val"⟩ 5 rfl

/-- Claim C9, amended: the dataset metadata is `None` at construction and
is settable after construction; reading it back returns the most recently
supplied mapping (the setter is an unconditional assignment, so a later set
replaces the earlier value). -/
theorem dataset_meta_settable :
    (∀ (dflt : Option String) (device : String) (arg : Option String),
        (BaseMetric.init dflt device arg).1.dataset_meta = none) ∧
    (∀ (st : MetricState) (dm : List (String × PyVal)),
        (st.set_dataset_meta dm).dataset_meta = some dm) :=
  ⟨fun _ _ _ => rfl, fun _ _ => rfl⟩

/-- Claim C9 as stated is false: the `dataset_meta` setter does not make
the attribute settable exactly once; a second set replaces the mapping
supplied by the first. -/
theorem dataset_meta_write_once_cex :
    (((BaseMetric.init none "cpu" none).1.set_dataset_meta
          [("a", PyVal.other 1)]).set_dataset_meta
        [("a", PyVal.other 2)]).dataset_meta = some [("a", PyVal.other 2)] ∧
      some [("a", PyVal.other 2)] ≠ some [("a", PyVal.other 1)] := by
  refine ⟨rfl, ?_⟩
  simp

/-- Claim C10: if a step of `evaluate` raises, the call propagates the
error and leaves the whole instance state, in particular the results
accumulator, unchanged; in addition an error in the collection step
propagates as the outcome.  (The accumulator is cleared only on normal
completion, which is the `.ok` case of claim C2.) -/
theorem evaluate_error_leaves_state :
    ∀ collect cm bcast (isMain : Bool) (st : MetricState) (size : Nat)
      (w : Bool) (out : Except String (Option MetricsDict))
      (st2 : MetricState),
      evaluateE collect cm bcast isMain st size = (w, out, st2) →
      (∀ e, out = .error e → st2 = st) ∧
      (∀ e, collect st.results size st.collect_device = .error e →
          out = .error e ∧ st2 = st) := by
  intro collect cm bcast isMain st size w out st2 h
  unfold evaluateE at h
  split at h
  · rename_i e0 heq
    simp only [Prod.mk.injEq] at h
    obtain ⟨h1, h2, h3⟩ := h
    constructor
    · intro e he; rw [← h3]
    · intro e hce
      rw [heq] at hce
      cases hce
      exact ⟨h2.symm, h3.symm⟩
  · rename_i results heq
    split at h
    · rename_i e1 hm
      simp only [Prod.mk.injEq] at h
      obtain ⟨h1, h2, h3⟩ := h
      constructor
      · intro e he; rw [← h3]
      · intro e hce
        rw [heq] at hce
        cases hce
    · rename_i metrics hm
      split at h
      · rename_i e2 hb
        simp only [Prod.mk.injEq] at h
        obtain ⟨h1, h2, h3⟩ := h
        constructor
        · intro e he; rw [← h3]
        · intro e hce
          rw [heq] at hce
          cases hce
      · rename_i metrics2 hb
        simp only [Prod.mk.injEq] at h
        obtain ⟨h1, h2, h3⟩ := h
        constructor
        · intro e he
          rw [← h2] at he
          cases he
        · intro e hce
          rw [heq] at hce
          cases hce

/-- Concrete instance of claim C10: a failing collection step propagates
and the accumulator keeps its contents. -/
theorem evaluate_error_leaves_state_witness :
    (evaluateE (fun _ _ _ => .error "boom") (fun _ => .ok [])
        (fun l => .ok l) true ⟨none, "cpu", [PyVal.other 3], none⟩ 1).2.2 =
      ⟨none, "cpu", [PyVal.other 3], none⟩ :=
  (evaluate_error_leaves_state (fun _ _ _ => .error "boom") (fun _ => .ok [])
      (fun l => .ok l) true ⟨none, "cpu", [PyVal.other 3], none⟩ 1 false
      (.error "boom") ⟨none, "cpu", [PyVal.other 3], none⟩ rfl).1 "boom" rfl
